import Mathlib

/-!
Verification of the geoloc image-geolocation pipeline (src/index.js, with the
part_000 variant of the renderer), as a shallow embedding in Lean.

JavaScript numbers are modelled as rationals, with an explicit NaN marker where
the code tests isNaN; possibly-missing JSON fields are modelled as Option;
code that can throw is modelled with Except, and each try/catch of the source
is an explicit match on that Except. Engine and network outcomes that the
program cannot determine locally are supplied by a small environment type, and
the orchestrator returns its result together with the ordered list of
observable events (which engines were actually asked for a request).
-/

namespace Geoloc

/-- A JavaScript number: NaN or a finite rational. -/
inductive JsNum where
  | nan
  | num (q : ℚ)
deriving DecidableEq

/-- The isNaN test used by renderResults. -/
def JsNum.isNaN : JsNum → Bool
  | .nan => true
  | .num _ => false

/-- JavaScript comparison x less than r, with NaN comparing false. -/
def JsNum.lt : JsNum → ℚ → Bool
  | .nan, _ => false
  | .num q, r => decide (q < r)

/-- Math.round on a finite JavaScript number: round half toward positive infinity. -/
def jsRound (q : ℚ) : Int := Int.floor (q + 1/2)

/-- A parsed JSON response from a remote engine; none marks a missing field. -/
structure ParsedGuess where
  lat : Option ℚ
  lng : Option ℚ
  city : Option String
  country : Option String
  confidence : Option ℚ
  reasoning : Option String
  visualAnalysisSummary : Option String
deriving DecidableEq

/-- JavaScript truthiness of a possibly-missing numeric field: present and nonzero.
This is the acceptance test the code applies to parsed.lat and parsed.lng. -/
def truthyNum : Option ℚ → Bool
  | none => false
  | some q => q != 0

/-- Modelled from the spec: the invariant of section 3 defines a LocationGuess as
structurally valid iff latitude and longitude are present, finite and in range
[-90,90] and [-180,180], and confidence is present. This definition follows the
words of the spec, for comparison with the acceptance check the code performs;
in this rational model every present value is finite. -/
def structurallyValidSpec (g : ParsedGuess) : Bool :=
  match g.lat, g.lng, g.confidence with
  | some la, some ln, some _ =>
    decide (-90 ≤ la) && decide (la ≤ 90) && decide (-180 ≤ ln) && decide (ln ≤ 180)
  | _, _, _ => false

/-- Outcome of the upstream calls made by Vision: the ImgBB upload, the relay
search, and the shape of the relay response (whether ai_overview references and
visual_matches are present). -/
inductive UpstreamVision where
  | uploadThrows
  | relayThrows
  | response (aiRefs : Option (List String)) (visualMatches : Option (List String))
deriving DecidableEq

/-- The join used on reference snippets and on visual-match titles. -/
def joinComma (l : List String) : String := String.intercalate ", " l

/-- Model of Vision (src/index.js lines 337-366): upload the image to obtain a
URL, query the relay, then read ai_overview references when present, else the
visual-match titles. There is no try/catch inside Vision, so an upload failure,
a relay failure, or a response with neither field raises out of the function. -/
def Vision : UpstreamVision → Except String String
  | .uploadThrows => .error "upload failed"
  | .relayThrows => .error "relay failed"
  | .response aiRefs visualMatches =>
    match aiRefs with
    | some refs => .ok (joinComma refs)
    | none =>
      match visualMatches with
      | some titles => .ok (joinComma titles)
      | none => .error "TypeError: cannot read properties of undefined"

/-- True when the Vision call raises. -/
def visionFails (u : UpstreamVision) : Bool :=
  match Vision u with
  | .error _ => true
  | .ok _ => false

/-- Outcome of one remote engine call: a thrown transport or parse error, or a
parsed JSON guess. -/
inductive EngineOutcome where
  | throws
  | returns (g : ParsedGuess)
deriving DecidableEq

/-- The environment of one identifyLocation run: upstream hint outcome, the two
remote engine outcomes, and the preference field value. -/
structure Env where
  vision : UpstreamVision
  engine1 : EngineOutcome
  engine2 : EngineOutcome
  preference : String
deriving DecidableEq

/-- Observable events of one identifyLocation run, in order. -/
inductive Event where
  | engine1Request
  | secondTryEntered
  | engine2Request
  | localCall
deriving DecidableEq

/-- The outcome of identifyLocation: a selected guess with its source stamp, or
the implicit undefined return when no attempt selects a guess. -/
inductive PipelineResult where
  | selected (g : ParsedGuess) (source : String)
  | undef
deriving DecidableEq

/-- Source stamp of a pipeline result, when there is one. -/
def resultSource : PipelineResult → Option String
  | .selected _ s => some s
  | .undef => none

/-- Names in scope inside the second try block of identifyLocation
(src/index.js lines 161-185) when the argument of the generateContent call is
evaluated: the module-level bindings of the file, ambient globals, the function
parameters, and the consts declared earlier in that block. serpResponse is
declared with const inside the FIRST try block (line 133), so it is block
scoped there and absent here. -/
def secondTryScope : List String :=
  ["GoogleGenAI", "Type", "L", "mobilenet", "Tesseract",
   "GEMINI_RESPONSE_SCHEMA", "state", "nodes",
   "init", "handleFileSelect", "identifyLocation", "renderResults",
   "resetApp", "runLocalObjectAnalysis", "Vision",
   "process", "console", "JSON", "FormData", "document", "window", "fetch",
   "base64Image", "file", "preference", "ai"]

/-- Free identifiers referenced by the prompt template literal of the second
engine request (src/index.js lines 169-171). -/
def secondPromptIdents : List String := ["preference", "serpResponse"]

/-- Evaluation of the second prompt template literal against the scope above:
the first referenced identifier that is not in scope raises a ReferenceError,
before any request can be issued. -/
def secondaryPromptEval : Except String Unit :=
  match secondPromptIdents.find? (fun v => !(secondTryScope.contains v)) with
  | some v => .error ("ReferenceError: " ++ v ++ " is not defined")
  | none => .ok ()

/-- Model of the second try block of identifyLocation (src/index.js lines
161-185): evaluate the request argument, whose prompt references serpResponse;
only if that succeeds is the second engine request issued, and a returned guess
with truthy lat and lng selected with source Gemini 2.5 Flash. Every failure is
caught by the enclosing catch, yielding no selection. -/
def secondaryAttempt (env : Env) : Option (ParsedGuess × String) × List Event :=
  match secondaryPromptEval with
  | .error _ => (none, [])
  | .ok _ =>
    match env.engine2 with
    | .throws => (none, [Event.engine2Request])
    | .returns g =>
      if truthyNum g.lat && truthyNum g.lng then
        (some (g, "Gemini 2.5 Flash"), [Event.engine2Request])
      else
        (none, [Event.engine2Request])

/-- Model of identifyLocation (src/index.js lines 130-202). The first try block
awaits Vision, then issues the first engine request and selects the parsed
guess with source Gemini 3 Flash when parsed.lat and parsed.lng are truthy; any
throw inside the block is caught. The second try block is then run. The local
fallback that follows (lines 186-194) sits inside a block comment that is only
terminated by the doc comment of renderResults, so it is never executed, and
when no attempt selects a guess the function returns undefined. The result is
paired with the ordered event list of the run. -/
def identifyLocation (env : Env) : PipelineResult × List Event :=
  let first : Option ParsedGuess × List Event :=
    match Vision env.vision with
    | .error _ => (none, [])
    | .ok _serp =>
      match env.engine1 with
      | .throws => (none, [Event.engine1Request])
      | .returns g =>
        if truthyNum g.lat && truthyNum g.lng then (some g, [Event.engine1Request])
        else (none, [Event.engine1Request])
  match first with
  | (some g, ev) => (.selected g "Gemini 3 Flash", ev)
  | (none, ev) =>
    match secondaryAttempt env with
    | (some (g, s), ev2) => (.selected g s, ev ++ Event.secondTryEntered :: ev2)
    | (none, ev2) => (.undef, ev ++ Event.secondTryEntered :: ev2)

/-- The data record handed to renderResults. -/
structure GuessData where
  source : String
  lat : JsNum
  lng : JsNum
  city : String
  country : String
  confidence : JsNum
  reasoning : String
  visualAnalysisSummary : String
deriving DecidableEq

/-- Observable output of one renderResults call: the status message when the
low-confidence branch runs, whether the results pane is shown, the certainty
line, the placed marker, the uncertainty circle radius, and the fly-to target. -/
structure RenderOutput where
  statusText : Option String
  resultsShown : Bool
  locConfidence : Option String
  marker : Option (JsNum × JsNum)
  circleRadius : Option ℚ
  flewTo : Option (JsNum × JsNum)
deriving DecidableEq

/-- The certainty line of the sidebar: Math.round of confidence times 100 minus
10, as a percentage (src/index.js line 220). -/
def certaintyText : JsNum → String
  | .nan => "Certainty: NaN%"
  | .num c => "Certainty: " ++ toString (jsRound (c * 100 - 10)) ++ "%"

/-- Model of renderResults in src/index.js (lines 203-255). The low-confidence
branch runs when confidence is below 0; otherwise the results pane is filled, a
marker is placed when neither coordinate is NaN, and the circle radius is 1000
when the preference field is the empty string, else 500. -/
def renderResults (prefer : String) (d : GuessData) : RenderOutput :=
  if JsNum.lt d.confidence 0 then
    { statusText := some "Very Low confidence", resultsShown := false,
      locConfidence := none, marker := none, circleRadius := none, flewTo := none }
  else
    let base : RenderOutput :=
      { statusText := none, resultsShown := true,
        locConfidence := some (certaintyText d.confidence),
        marker := none, circleRadius := none, flewTo := none }
    if !(JsNum.isNaN d.lat) && !(JsNum.isNaN d.lng) then
      { base with
        marker := some (d.lat, d.lng),
        circleRadius := some (if prefer = "" then 1000 else 500),
        flewTo := some (d.lat, d.lng) }
    else base

/-- One entry of the static dataset.json: the value kept for a lowercase term. -/
structure DatasetEntry where
  lat : ℚ
  lng : ℚ
  city : String
  country : String
  reasoning : String
deriving DecidableEq

/-- Outcome of the dataset fetch on lines 311-313: the fetch rejects, the
response is not ok, response.json() fails to parse, or a parsed object arrives,
modelled as an association list from key to entry. -/
inductive DatasetOutcome where
  | fetchThrows
  | notOk
  | parseThrows
  | ok (entries : List (String × DatasetEntry))
deriving DecidableEq

/-- Environment of one runLocalObjectAnalysis run: the classifier predictions
(className values as returned by the model), the recognized OCR text, and the
outcome of the dataset fetch. -/
structure LocalEnv where
  predictions : List String
  ocrText : String
  dataset : DatasetOutcome
deriving DecidableEq

/-- The result record built by runLocalObjectAnalysis. -/
structure LocalResult where
  source : String
  lat : ℚ
  lng : ℚ
  city : String
  country : String
  confidence : ℚ
  reasoning : String
  visualAnalysisSummary : String
deriving DecidableEq

/-- A single-quote character, kept out of string literals. -/
def sq : String := String.singleton (Char.ofNat 39)

/-- A lowercase ASCII letter, as tested by the regex on line 295. -/
def isAsciiLowerAlpha (c : Char) : Bool := 'a' ≤ c && c ≤ 'z'

/-- The separator class of the OCR split regex on line 295: whitespace, comma
or period. -/
def ocrSplitSep (c : Char) : Bool := c.isWhitespace || c == ',' || c == '.'

/-- Character-level lowercasing of a string, as toLowerCase does on the ASCII
text the matching works over. -/
def jsToLower (s : String) : String := String.mk (s.data.map Char.toLower)

/-- Split a character list at each separator, keeping the collected pieces. -/
def splitSepAux : List Char → List Char → List String
  | [], acc => [String.mk acc.reverse]
  | c :: cs, acc =>
    if ocrSplitSep c then String.mk acc.reverse :: splitSepAux cs []
    else splitSepAux cs (c :: acc)

/-- Split a string on the OCR separator class. Splitting at single separator
characters rather than at maximal runs leaves extra empty pieces, all of which
the length filter below removes, so the result after filtering agrees with the
regex split of the source. -/
def splitSep (s : String) : List String := splitSepAux s.data []

/-- OCR word extraction (line 295): lowercase the text, split on the separator
class, keep words longer than 3 made only of lowercase letters. -/
def ocrWordsOf (ocrText : String) : List String :=
  (splitSep (jsToLower ocrText)).filter
    (fun w => w.length > 3 && w.data.all isAsciiLowerAlpha)

/-- Lowercased classifier labels (line 292). -/
def objectsOf (env : LocalEnv) : List String := env.predictions.map jsToLower

/-- Deduplication in first-occurrence order, as the Set constructor on line 297
does. -/
def dedupFirstAux : List String → List String → List String
  | [], _ => []
  | x :: xs, seen =>
    if seen.contains x then dedupFirstAux xs seen
    else x :: dedupFirstAux xs (x :: seen)

/-- First-occurrence deduplication of a list of strings. -/
def dedupFirst (l : List String) : List String := dedupFirstAux l []

/-- The candidate term list of line 297: lowercased classifier labels followed
by the filtered OCR words, deduplicated keeping first occurrences. -/
def uniqueTermsOf (env : LocalEnv) : List String :=
  dedupFirst (objectsOf env ++ ocrWordsOf env.ocrText)

/-- JavaScript property lookup in the parsed dataset object. -/
def lookupDataset (entries : List (String × DatasetEntry)) (k : String) :
    Option DatasetEntry :=
  (entries.find? (fun p => p.1 == k)).map Prod.snd

/-- The default fallback record of lines 301-308: Paris placeholder
coordinates, confidence 0.2, the fixed no-match reasoning, and a summary built
from the detected objects and the first 60 characters of the OCR text. -/
def defaultLocalResult (env : LocalEnv) : LocalResult :=
  { source := "Fallback: Local MobileNet + OCR",
    lat := 488566/10000, lng := 23522/10000,
    city := "Error Location", country := "Unknown",
    confidence := 2/10,
    reasoning := "Local analysis could not match features to the database.",
    visualAnalysisSummary :=
      "Detected Objects: " ++ joinComma (objectsOf env) ++ ". OCR Text: \"" ++
        ((env.ocrText.replace "\n" " ").take 60) ++ "...\"" }

/-- Model of runLocalObjectAnalysis (src/index.js lines 274-336). Build the
candidate terms, start from the default record, then try to fetch the dataset:
a fetch or parse failure is caught and a non-ok response skipped, leaving the
default; otherwise the first candidate term present as a dataset key wins, with
confidence 0.7 when that term is among the OCR words and 0.4 otherwise. The
function always returns a record, never raising past the matching phase. -/
def runLocalObjectAnalysis (env : LocalEnv) : LocalResult :=
  let result := defaultLocalResult env
  match env.dataset with
  | .fetchThrows => result
  | .notOk => result
  | .parseThrows => result
  | .ok entries =>
    match (uniqueTermsOf env).find? (fun t => (lookupDataset entries t).isSome) with
    | none => result
    | some k =>
      match lookupDataset entries k with
      | none => result
      | some m =>
        let isOcrMatch := (ocrWordsOf env.ocrText).contains k
        { result with
          lat := m.lat, lng := m.lng, city := m.city, country := m.country,
          confidence := if isOcrMatch then 7/10 else 4/10,
          reasoning :=
            "Local AI identified " ++ sq ++ k ++ sq ++ " via " ++
              (if isOcrMatch then "Text Analysis" else "Visual Recognition") ++
              ". " ++ m.reasoning }

namespace Part000

/-- Model of renderResults in the part_000 variant (lines 201-253): identical to
the src/index.js renderer except that the low-confidence cutoff is 0.3. -/
def renderResults (prefer : String) (d : GuessData) : RenderOutput :=
  if JsNum.lt d.confidence (3/10) then
    { statusText := some "Very Low confidence", resultsShown := false,
      locConfidence := none, marker := none, circleRadius := none, flewTo := none }
  else
    let base : RenderOutput :=
      { statusText := none, resultsShown := true,
        locConfidence := some (certaintyText d.confidence),
        marker := none, circleRadius := none, flewTo := none }
    if !(JsNum.isNaN d.lat) && !(JsNum.isNaN d.lng) then
      { base with
        marker := some (d.lat, d.lng),
        circleRadius := some (if prefer = "" then 1000 else 500),
        flewTo := some (d.lat, d.lng) }
    else base

end Part000

/-! Concrete inputs used by the counterexamples and witnesses below. -/

/-- A parsed guess with out-of-range coordinates and no confidence field; both
coordinate fields are present and nonzero, hence truthy. -/
def gOutOfRange : ParsedGuess :=
  { lat := some 100, lng := some 200, city := some "Nowhere",
    country := some "Atlantis", confidence := none,
    reasoning := some "looks far away", visualAnalysisSummary := some "water" }

/-- A run whose first engine returns the out-of-range guess. -/
def envOutOfRange : Env :=
  { vision := .response (some ["a shoreline"]) none,
    engine1 := .returns gOutOfRange, engine2 := .throws, preference := "" }

/-- A structurally valid guess sitting on the equator: latitude 0 is present,
finite and in range, and confidence is present. -/
def gZeroLat : ParsedGuess :=
  { lat := some 0, lng := some 10, city := some "Gulf",
    country := some "Ghana", confidence := some 1,
    reasoning := some "equator", visualAnalysisSummary := some "sea" }

/-- A run whose first engine returns the equator guess. -/
def envZeroLat : Env :=
  { vision := .response (some ["open sea"]) none,
    engine1 := .returns gZeroLat, engine2 := .throws, preference := "" }

/-- A parsed guess whose lat field is missing. -/
def gMissingLat : ParsedGuess :=
  { lat := none, lng := some 10, city := some "Gulf",
    country := some "Ghana", confidence := some 1,
    reasoning := some "no latitude", visualAnalysisSummary := some "sea" }

/-- A run whose first engine returns the guess with the missing lat field. -/
def envMissingLat : Env :=
  { vision := .response (some ["hint"]) none,
    engine1 := .returns gMissingLat, engine2 := .throws, preference := "" }

/-- A run in which the hint succeeds and both remote engines throw. -/
def envAllRemoteFail : Env :=
  { vision := .response (some ["roadside stall"]) none,
    engine1 := .throws, engine2 := .throws, preference := "" }

/-- A fully valid parsed guess. -/
def gValid : ParsedGuess :=
  { lat := some 10, lng := some 20, city := some "Accra",
    country := some "Ghana", confidence := some 1,
    reasoning := some "landmark", visualAnalysisSummary := some "tower" }

/-- A run in which the first engine succeeds with the valid guess. -/
def envValid : Env :=
  { vision := .response (some ["tower photo"]) none,
    engine1 := .returns gValid, engine2 := .throws, preference := "" }

/-- A run in which the hint-source image upload fails while both engines would
have answered with the valid guess. -/
def envUploadFails : Env :=
  { vision := .uploadThrows, engine1 := .returns gValid,
    engine2 := .returns gValid, preference := "" }

/-- An accepted guess with confidence 0: below the 0.3 of the claim, not below
the 0 of the src/index.js renderer. -/
def dZero : GuessData :=
  { source := "Gemini 3 Flash", lat := .num 10, lng := .num 20,
    city := "Accra", country := "Ghana", confidence := .num 0,
    reasoning := "r", visualAnalysisSummary := "v" }

/-- An accepted guess with confidence 1. -/
def dAccepted : GuessData :=
  { source := "Gemini 3 Flash", lat := .num 10, lng := .num 20,
    city := "Accra", country := "Ghana", confidence := .num 1,
    reasoning := "r", visualAnalysisSummary := "v" }

/-- A guess with negative confidence. -/
def dNeg : GuessData :=
  { source := "Gemini 3 Flash", lat := .num 10, lng := .num 20,
    city := "Accra", country := "Ghana", confidence := .num (-1),
    reasoning := "r", visualAnalysisSummary := "v" }

/-- Dataset entry for the key found by the classifier. -/
def templeEntry : DatasetEntry :=
  { lat := 21, lng := 105, city := "TempleTown", country := "Vietnam",
    reasoning := "many temples" }

/-- Dataset entry for the key found by the OCR pass. -/
def hanoiEntry : DatasetEntry :=
  { lat := 21, lng := 106, city := "Hanoi", country := "Vietnam",
    reasoning := "capital" }

/-- A dataset holding both keys. -/
def datasetVN : List (String × DatasetEntry) :=
  [("temple", templeEntry), ("hanoi", hanoiEntry)]

/-- Local run where the classifier finds temple and the OCR text reads hanoi,
and both words are dataset keys. -/
def envOrdering : LocalEnv :=
  { predictions := ["Temple"], ocrText := "hanoi", dataset := .ok datasetVN }

/-- Local run whose only dataset match comes from the OCR words. -/
def envOcrMatch : LocalEnv :=
  { predictions := ["Street"], ocrText := "Welcome to HANOI",
    dataset := .ok datasetVN }

/-- Local run whose only dataset match comes from the classifier labels. -/
def envVisMatch : LocalEnv :=
  { predictions := ["Temple"], ocrText := "abc", dataset := .ok datasetVN }

/-- Local run in which the dataset fetch returns a non-ok response. -/
def envLoadFail : LocalEnv :=
  { predictions := ["Temple"], ocrText := "hanoi", dataset := .notOk }

/-- Local run in which no candidate term is a dataset key. -/
def envNoMatch : LocalEnv :=
  { predictions := ["Dog"], ocrText := "hello there", dataset := .ok datasetVN }

/-! Theorems. -/

/-- The second attempt never selects a guess and never issues a request: its
prompt evaluation raises first, whatever the environment. -/
theorem secondaryAttempt_eq (env : Env) : secondaryAttempt env = (none, []) := rfl

/-- Claim C1, counterexample: the first engine returns a guess with latitude
100, longitude 200 and no confidence field, structurally invalid in the sense
of the spec invariant, yet identifyLocation selects it as the result, because
the acceptance check of the code is only truthiness of lat and lng. -/
theorem c1_invalid_guess_selected_counterexample :
    structurallyValidSpec gOutOfRange = false ∧
    (identifyLocation envOutOfRange).1 =
      PipelineResult.selected gOutOfRange "Gemini 3 Flash" :=
  ⟨rfl, rfl⟩

/-- Claim C1, amended: when the hint phase succeeds and the first engine
returns a guess whose lat or lng field is missing, the orchestrator treats it
as an engine failure: nothing is raised (the run returns normally with the
undefined result of this variant), control advances to the next engine
attempt, and the invalid guess is never selected. -/
theorem c1_missing_latlng_advances (env : Env) (g : ParsedGuess) (s : String)
    (hV : Vision env.vision = Except.ok s)
    (hE : env.engine1 = EngineOutcome.returns g)
    (h : g.lat = none ∨ g.lng = none) :
    identifyLocation env =
      (PipelineResult.undef, [Event.engine1Request, Event.secondTryEntered]) := by
  have hb : (truthyNum g.lat && truthyNum g.lng) = false := by
    rcases h with h | h <;> simp [h, truthyNum]
  simp [identifyLocation, hV, hE, hb, secondaryAttempt_eq]

/-- Witness for the amended claim C1 at a concrete run. -/
theorem c1_missing_latlng_advances_witness :
    identifyLocation envMissingLat =
      (PipelineResult.undef, [Event.engine1Request, Event.secondTryEntered]) :=
  c1_missing_latlng_advances envMissingLat gMissingLat (joinComma ["hint"])
    rfl rfl (Or.inl rfl)

/-- Claim C2: on a run in which the hint succeeds and the first engine throws,
identifyLocation returns the undefined result and the local engine is never
invoked: the fallback block of src/index.js lines 186-194 sits inside a block
comment, so no local attempt happens and no all-engines-exhausted failure is
raised by identifyLocation. -/
theorem c2_local_engine_never_invoked :
    identifyLocation envAllRemoteFail =
      (PipelineResult.undef, [Event.engine1Request, Event.secondTryEntered]) ∧
    ((identifyLocation envAllRemoteFail).2.contains Event.localCall) = false :=
  ⟨rfl, rfl⟩

/-- Claim C3, counterexample: the first engine returns a structurally valid
guess with latitude 0; the truthiness gate treats 0 as missing, so the
pipeline does not terminate with the first engine label and instead advances
to the second attempt, ending undefined. -/
theorem c3_zero_latitude_rejected_counterexample :
    structurallyValidSpec gZeroLat = true ∧
    (identifyLocation envZeroLat).1 = PipelineResult.undef ∧
    (identifyLocation envZeroLat).2 =
      [Event.engine1Request, Event.secondTryEntered] :=
  ⟨rfl, rfl, rfl⟩

/-- Claim C3, amended: when the hint phase succeeds and the first engine
returns a guess whose lat and lng are both truthy (present and nonzero), the
pipeline terminates at once with that guess and the Gemini 3 Flash source
label; the event list shows the first engine request only, so no later engine
and no local attempt is invoked. -/
theorem c3_first_truthy_wins (env : Env) (g : ParsedGuess) (s : String)
    (hV : Vision env.vision = Except.ok s)
    (hE : env.engine1 = EngineOutcome.returns g)
    (hlat : truthyNum g.lat = true) (hlng : truthyNum g.lng = true) :
    identifyLocation env =
      (PipelineResult.selected g "Gemini 3 Flash", [Event.engine1Request]) := by
  simp [identifyLocation, hV, hE, hlat, hlng]

/-- Witness for the amended claim C3 at a concrete run. -/
theorem c3_first_truthy_wins_witness :
    identifyLocation envValid =
      (PipelineResult.selected gValid "Gemini 3 Flash", [Event.engine1Request]) :=
  c3_first_truthy_wins envValid gValid (joinComma ["tower photo"]) rfl rfl rfl rfl

/-- Claim C4, counterexample: an accepted guess with confidence 0, which is
below the 0.3 cutoff of the claim, still receives a marker from the
src/index.js renderer, whose low-confidence cutoff is 0. -/
theorem c4_low_confidence_marker_counterexample :
    dZero.confidence = JsNum.num 0 ∧ ((0:ℚ) < 3/10) ∧
    (renderResults "" dZero).marker = some (JsNum.num 10, JsNum.num 20) :=
  ⟨rfl, by norm_num, rfl⟩

/-- Claim C4, amended: the low-confidence cutoff is 0 in the src/index.js
renderer and 0.3 in the part_000 variant. For numeric fields: in src/index.js
a marker is placed at (lat, lng) exactly when confidence is at least 0; in
part_000 exactly when confidence is at least 0.3. -/
theorem c4_marker_threshold (prefer : String) (d : GuessData) (la ln c : ℚ)
    (hla : d.lat = JsNum.num la) (hln : d.lng = JsNum.num ln)
    (hc : d.confidence = JsNum.num c) :
    ((c < 0 → (renderResults prefer d).marker = none) ∧
     (0 ≤ c → (renderResults prefer d).marker = some (d.lat, d.lng)) ∧
     (c < 3/10 → (Part000.renderResults prefer d).marker = none) ∧
     (3/10 ≤ c → (Part000.renderResults prefer d).marker = some (d.lat, d.lng))) := by
  refine ⟨fun h => ?_, fun h => ?_, fun h => ?_, fun h => ?_⟩
  · simp [renderResults, hc, JsNum.lt, h]
  · simp [renderResults, hc, hla, hln, JsNum.lt, JsNum.isNaN, not_lt.mpr h]
  · simp [Part000.renderResults, hc, JsNum.lt, h]
  · simp [Part000.renderResults, hc, hla, hln, JsNum.lt, JsNum.isNaN, not_lt.mpr h]

/-- Witness for the amended claim C4 at concrete guesses on both sides of both
cutoffs. -/
theorem c4_marker_threshold_witness :
    (renderResults "" dAccepted).marker = some (dAccepted.lat, dAccepted.lng) ∧
    (Part000.renderResults "" dAccepted).marker = some (dAccepted.lat, dAccepted.lng) ∧
    (renderResults "" dNeg).marker = none ∧
    (Part000.renderResults "" dZero).marker = none := by
  have h1 := c4_marker_threshold "" dAccepted 10 20 1 rfl rfl rfl
  have h2 := c4_marker_threshold "" dNeg 10 20 (-1) rfl rfl rfl
  have h3 := c4_marker_threshold "" dZero 10 20 0 rfl rfl rfl
  exact ⟨h1.2.1 (by norm_num), h1.2.2.2 (by norm_num),
    h2.1 (by norm_num), h3.2.2.1 (by norm_num)⟩

/-- Claim C5, counterexample: when the hint-source image upload fails, Vision
raises instead of returning a string, and the run skips the first engine
entirely (no first-engine request event occurs), advancing to the second
attempt instead. -/
theorem c5_hint_failure_skips_engine1_counterexample :
    Vision UpstreamVision.uploadThrows = Except.error "upload failed" ∧
    identifyLocation envUploadFails = (PipelineResult.undef, [Event.secondTryEntered]) ∧
    ((identifyLocation envUploadFails).2.contains Event.engine1Request) = false :=
  ⟨rfl, rfl, rfl⟩

/-- Claim C5, amended: a hint-source failure raises out of Vision, but the
first try/catch of identifyLocation catches it, so nothing propagates to the
caller; the cost is that the first engine request is skipped and the run
advances directly to the second attempt, ending with the undefined result of
this variant. -/
theorem c5_vision_error_caught_not_propagated (env : Env)
    (h : visionFails env.vision = true) :
    identifyLocation env = (PipelineResult.undef, [Event.secondTryEntered]) := by
  cases hV : Vision env.vision with
  | error e => simp [identifyLocation, hV, secondaryAttempt_eq]
  | ok s => exfalso; simp [visionFails, hV] at h

/-- Witness for the amended claim C5 at a concrete run. -/
theorem c5_vision_error_caught_not_propagated_witness :
    identifyLocation envUploadFails = (PipelineResult.undef, [Event.secondTryEntered]) :=
  c5_vision_error_caught_not_propagated envUploadFails rfl

/-- Claim C6: the local engine returns its fixed default record (confidence
0.2, Paris placeholder coordinates, the fixed no-match reasoning) when the
dataset fetch fails, is not ok, or fails to parse, and likewise when no
candidate term is a dataset key; when the first matching term is found, the
confidence is 0.7 if that term is among the OCR words and 0.4 otherwise, with
the coordinates taken from the matched entry. The function is total: no case
raises. -/
theorem c6_local_confidence_policy (env : LocalEnv) :
    ((env.dataset = DatasetOutcome.fetchThrows ∨ env.dataset = DatasetOutcome.notOk ∨
        env.dataset = DatasetOutcome.parseThrows) →
      (runLocalObjectAnalysis env).confidence = 2/10 ∧
      (runLocalObjectAnalysis env).lat = 488566/10000 ∧
      (runLocalObjectAnalysis env).lng = 23522/10000 ∧
      (runLocalObjectAnalysis env).reasoning =
        "Local analysis could not match features to the database.") ∧
    (∀ entries, env.dataset = DatasetOutcome.ok entries →
      (((uniqueTermsOf env).find? (fun t => (lookupDataset entries t).isSome) = none →
        (runLocalObjectAnalysis env).confidence = 2/10 ∧
        (runLocalObjectAnalysis env).lat = 488566/10000 ∧
        (runLocalObjectAnalysis env).lng = 23522/10000 ∧
        (runLocalObjectAnalysis env).reasoning =
          "Local analysis could not match features to the database.") ∧
      (∀ k m,
        (uniqueTermsOf env).find? (fun t => (lookupDataset entries t).isSome) = some k →
        lookupDataset entries k = some m →
        (runLocalObjectAnalysis env).confidence =
          (if (ocrWordsOf env.ocrText).contains k then (7:ℚ)/10 else 4/10) ∧
        (runLocalObjectAnalysis env).lat = m.lat ∧
        (runLocalObjectAnalysis env).lng = m.lng ∧
        (runLocalObjectAnalysis env).city = m.city))) := by
  constructor
  · rintro (h | h | h) <;>
      simp [runLocalObjectAnalysis, h, defaultLocalResult]
  · intro entries hds
    constructor
    · intro hfind
      simp [runLocalObjectAnalysis, hds, hfind, defaultLocalResult]
    · intro k m hfind hlook
      simp [runLocalObjectAnalysis, hds, hfind, hlook]

/-- Witness for claim C6: the four cases at concrete local runs. -/
theorem c6_local_confidence_policy_witness :
    (runLocalObjectAnalysis envLoadFail).confidence = 2/10 ∧
    (runLocalObjectAnalysis envNoMatch).lat = 488566/10000 ∧
    (runLocalObjectAnalysis envOcrMatch).confidence = 7/10 ∧
    (runLocalObjectAnalysis envVisMatch).confidence = 4/10 := by
  refine ⟨((c6_local_confidence_policy envLoadFail).1 (Or.inr (Or.inl rfl))).1,
    ?_, ?_, ?_⟩
  · exact ((((c6_local_confidence_policy envNoMatch).2 datasetVN rfl).1) rfl).2.1
  · have h := (((c6_local_confidence_policy envOcrMatch).2 datasetVN rfl).2
      "hanoi" hanoiEntry rfl rfl).1
    exact h.trans rfl
  · have h := (((c6_local_confidence_policy envVisMatch).2 datasetVN rfl).2
      "temple" templeEntry rfl rfl).1
    exact h.trans rfl

/-- Claim C7: in the code the candidate list is built as classifier labels
followed by OCR tokens, not OCR tokens first: with classifier label Temple and
OCR text hanoi, both dataset keys, the candidate list is temple then hanoi and
the classifier-derived temple wins with confidence 0.4, where the claim (and
the code comment saying to check OCR words first) expects hanoi with 0.7. -/
theorem c7_classifier_ordered_before_ocr :
    ocrWordsOf envOrdering.ocrText = ["hanoi"] ∧
    objectsOf envOrdering = ["temple"] ∧
    uniqueTermsOf envOrdering = ["temple", "hanoi"] ∧
    (runLocalObjectAnalysis envOrdering).city = "TempleTown" ∧
    (runLocalObjectAnalysis envOrdering).confidence = 4/10 :=
  ⟨rfl, rfl, rfl, rfl, rfl⟩

/-- Claim C8: whenever a renderer places a marker, the uncertainty circle has
radius 1000 when the preference is the empty string and 500 otherwise, in both
renderer variants; the radius does not depend on the confidence value. -/
theorem c8_circle_radius_policy (prefer : String) (d : GuessData) :
    ((renderResults prefer d).marker.isSome = true →
      (renderResults prefer d).circleRadius =
        some (if prefer = "" then (1000:ℚ) else 500)) ∧
    ((Part000.renderResults prefer d).marker.isSome = true →
      (Part000.renderResults prefer d).circleRadius =
        some (if prefer = "" then (1000:ℚ) else 500)) := by
  constructor
  · intro h
    cases hcb : JsNum.lt d.confidence 0 with
    | false =>
      cases hN : (!(JsNum.isNaN d.lat) && !(JsNum.isNaN d.lng)) with
      | false => simp [renderResults, hcb, hN] at h
      | true => simp [renderResults, hcb, hN]
    | true => simp [renderResults, hcb] at h
  · intro h
    cases hcb : JsNum.lt d.confidence (3/10) with
    | false =>
      cases hN : (!(JsNum.isNaN d.lat) && !(JsNum.isNaN d.lng)) with
      | false => simp [Part000.renderResults, hcb, hN] at h
      | true => simp [Part000.renderResults, hcb, hN]
    | true => simp [Part000.renderResults, hcb] at h

/-- Witness for claim C8 at a concrete accepted guess, with and without a
preference. -/
theorem c8_circle_radius_policy_witness :
    (renderResults "" dAccepted).circleRadius = some 1000 ∧
    (renderResults "coastal" dAccepted).circleRadius = some 500 ∧
    (Part000.renderResults "coastal" dAccepted).circleRadius = some 500 := by
  have hm : (Part000.renderResults "coastal" dAccepted).marker.isSome = true := by
    norm_num [Part000.renderResults, JsNum.lt, JsNum.isNaN, dAccepted]
  refine ⟨((c8_circle_radius_policy "" dAccepted).1 rfl).trans rfl,
    ((c8_circle_radius_policy "coastal" dAccepted).1 rfl).trans rfl,
    ((c8_circle_radius_policy "coastal" dAccepted).2 hm).trans rfl⟩

/-- Claim C9: the secondary attempt evaluates a prompt referencing
serpResponse, which is not in scope there, so it raises a ReferenceError
before issuing its request: on every run the second engine request event never
occurs and the selected source is never Gemini 2.5 Flash. -/
theorem c9_secondary_reference_error (env : Env) :
    secondaryPromptEval =
      Except.error "ReferenceError: serpResponse is not defined" ∧
    secondaryAttempt env = (none, []) ∧
    ((identifyLocation env).2.contains Event.engine2Request) = false ∧
    ((resultSource (identifyLocation env).1 == some "Gemini 2.5 Flash")) = false := by
  refine ⟨rfl, rfl, ?_, ?_⟩
  all_goals
    cases hV : Vision env.vision with
    | error e => simp [identifyLocation, hV, secondaryAttempt_eq, resultSource]
    | ok s =>
      cases hE : env.engine1 with
      | throws => simp [identifyLocation, hV, hE, secondaryAttempt_eq, resultSource]
      | returns g =>
        cases hb : (truthyNum g.lat && truthyNum g.lng) with
        | false => simp [identifyLocation, hV, hE, hb, secondaryAttempt_eq, resultSource]
        | true => simp [identifyLocation, hV, hE, hb, secondaryAttempt_eq, resultSource]

/-- Claim C10: for an accepted guess with numeric confidence c at least 0, the
certainty line shown is Math.round of c times 100 minus 10, ten points below
the self-reported confidence. -/
theorem c10_certainty_formula (prefer : String) (d : GuessData) (c : ℚ)
    (hc : d.confidence = JsNum.num c) (h : 0 ≤ c) :
    (renderResults prefer d).locConfidence =
      some ("Certainty: " ++ toString (Int.floor (c * 100 - 10 + 1/2)) ++ "%") := by
  cases hN : (!(JsNum.isNaN d.lat) && !(JsNum.isNaN d.lng)) with
  | false =>
    simp [renderResults, certaintyText, jsRound, hc, hN, JsNum.lt, not_lt.mpr h]
  | true =>
    simp [renderResults, certaintyText, jsRound, hc, hN, JsNum.lt, not_lt.mpr h]

/-- Witness for claim C10: a confidence of 1 is shown as ninety percent. -/
theorem c10_certainty_formula_witness :
    (renderResults "" dAccepted).locConfidence = some "Certainty: 90%" := by
  have h := c10_certainty_formula "" dAccepted 1 rfl (by norm_num)
  rw [h]
  norm_num
  rfl

end Geoloc
